import Mathlib

/-!
Verification of the structural properties of the terraform-gcp diagram
generator (generate_architecture_diagram.py).

The script is purely declarative: each of its two builder functions opens a
Diagram context (title, filename, show flag, layout direction), declares a
fixed set of labeled nodes inside a fixed tree of named clusters, and then
declares a fixed list of directed edges between those nodes.  We embed that
data directly: a node records its identifier (the Python variable name), its
icon category (the class imported from the diagrams library), its display
label, and the stack of cluster names it was declared inside (its path).  A
diagram records the constructor keywords plus the node and edge lists, in
source order.
-/

namespace TerraformGcpDiagram

/-- Provider of an icon category: the diagrams library module it is imported
from is either a gcp module or an onprem module. -/
inductive Provider where
  | gcp
  | onprem
  deriving DecidableEq, Repr

/-- Icon categories used by the script, one per imported diagrams class
(diagrams.gcp.compute, .database, .network, .storage, .security, .analytics,
.devtools, and diagrams.onprem.client / .network). -/
inductive Category where
  | ComputeEngine
  | GKE
  | Run
  | SQL
  | Memorystore
  | VPC
  | LoadBalancing
  | DNS
  | FirewallRules
  | GCS
  | Filestore
  | Iam
  | KMS
  | BigQuery
  | ContainerRegistry
  | Users
  | Internet
  deriving DecidableEq, Repr

/-- Provider of each category, read off the import lines of the script:
Users and Internet come from diagrams.onprem, everything else from
diagrams.gcp. -/
def Category.provider : Category → Provider
  | .Users => .onprem
  | .Internet => .onprem
  | _ => .gcp

/-- Resource kind of a category: the submodule of the diagrams library it is
imported from (compute, database, network, storage, security, analytics,
devtools, client). -/
inductive Kind where
  | compute
  | database
  | network
  | storage
  | security
  | analytics
  | devtools
  | client
  deriving DecidableEq, Repr

/-- Kind of each category, read off the import lines of the script. -/
def Category.kind : Category → Kind
  | .ComputeEngine => .compute
  | .GKE => .compute
  | .Run => .compute
  | .SQL => .database
  | .Memorystore => .database
  | .VPC => .network
  | .LoadBalancing => .network
  | .DNS => .network
  | .FirewallRules => .network
  | .GCS => .storage
  | .Filestore => .storage
  | .Iam => .security
  | .KMS => .security
  | .BigQuery => .analytics
  | .ContainerRegistry => .devtools
  | .Users => .client
  | .Internet => .network

/-- A declared node: identifier (the Python variable name, unique within a
diagram), icon category, display label, and the stack of cluster names the
declaration is nested inside (outermost first; empty for diagram root). -/
structure Node where
  id : String
  category : Category
  label : String
  path : List String
  deriving DecidableEq, Repr

/-- A declared edge: ordered pair of node identifiers.  The data model allows
an optional label and style; the plain connector operator used by the script
sets neither. -/
structure Edge where
  src : String
  dst : String
  label : Option String := none
  style : Option String := none
  deriving DecidableEq, Repr

/-- A diagram: the Diagram constructor keywords (title, output file name,
show flag, layout direction) plus the declared nodes and edges, in source
order.  showView models the show keyword argument. -/
structure Diagram where
  name : String
  filename : String
  showView : Bool
  direction : String
  nodes : List Node
  edges : List Edge
  deriving DecidableEq, Repr

/-- Nodes of create_gcp_architecture_diagram, in declaration order
(source lines 32 to 105). -/
def gcpArchitectureNodes : List Node := [
  ⟨"users", .Users, "Users", []⟩,
  ⟨"internet", .Internet, "Internet", []⟩,
  ⟨"dns", .DNS, "Cloud DNS", ["Global Resources"]⟩,
  ⟨"lb_global", .LoadBalancing, "Global Load Balancer", ["Global Resources"]⟩,
  ⟨"iam", .Iam, "IAM & Service Accounts", ["Global Resources"]⟩,
  ⟨"kms", .KMS, "Cloud KMS", ["Global Resources"]⟩,
  ⟨"monitoring", .BigQuery, "Cloud Monitoring", ["Global Resources"]⟩,
  ⟨"registry", .ContainerRegistry, "Artifact Registry", ["Global Resources"]⟩,
  ⟨"vpc_primary", .VPC, "VPC",
    ["Primary Region (us-central1)", "VPC Network"]⟩,
  ⟨"web_subnet", .VPC, "Web Subnet",
    ["Primary Region (us-central1)", "VPC Network", "Subnets"]⟩,
  ⟨"app_subnet", .VPC, "App Subnet",
    ["Primary Region (us-central1)", "VPC Network", "Subnets"]⟩,
  ⟨"db_subnet", .VPC, "DB Subnet",
    ["Primary Region (us-central1)", "VPC Network", "Subnets"]⟩,
  ⟨"gke_subnet", .VPC, "GKE Subnet",
    ["Primary Region (us-central1)", "VPC Network", "Subnets"]⟩,
  ⟨"firewall", .FirewallRules, "Firewall Rules",
    ["Primary Region (us-central1)", "VPC Network"]⟩,
  ⟨"gke_primary", .GKE, "GKE Cluster",
    ["Primary Region (us-central1)", "VPC Network", "Compute Layer"]⟩,
  ⟨"cloud_run_primary", .Run, "Cloud Run",
    ["Primary Region (us-central1)", "VPC Network", "Compute Layer"]⟩,
  ⟨"compute_primary", .ComputeEngine, "Compute Engine",
    ["Primary Region (us-central1)", "VPC Network", "Compute Layer"]⟩,
  ⟨"sql_primary", .SQL, "Cloud SQL\n(PostgreSQL)",
    ["Primary Region (us-central1)", "VPC Network", "Database Layer"]⟩,
  ⟨"redis_primary", .Memorystore, "Redis Cache",
    ["Primary Region (us-central1)", "VPC Network", "Database Layer"]⟩,
  ⟨"storage_primary", .GCS, "Cloud Storage",
    ["Primary Region (us-central1)", "VPC Network", "Storage Layer"]⟩,
  ⟨"filestore_primary", .Filestore, "Filestore",
    ["Primary Region (us-central1)", "VPC Network", "Storage Layer"]⟩,
  ⟨"vpc_secondary", .VPC, "VPC",
    ["Secondary Region (us-east1)", "VPC Network"]⟩,
  ⟨"web_subnet_2", .VPC, "Web Subnet",
    ["Secondary Region (us-east1)", "VPC Network", "Subnets"]⟩,
  ⟨"app_subnet_2", .VPC, "App Subnet",
    ["Secondary Region (us-east1)", "VPC Network", "Subnets"]⟩,
  ⟨"db_subnet_2", .VPC, "DB Subnet",
    ["Secondary Region (us-east1)", "VPC Network", "Subnets"]⟩,
  ⟨"gke_subnet_2", .VPC, "GKE Subnet",
    ["Secondary Region (us-east1)", "VPC Network", "Subnets"]⟩,
  ⟨"firewall_2", .FirewallRules, "Firewall Rules",
    ["Secondary Region (us-east1)", "VPC Network"]⟩,
  ⟨"gke_secondary", .GKE, "GKE Cluster",
    ["Secondary Region (us-east1)", "VPC Network", "Compute Layer"]⟩,
  ⟨"cloud_run_secondary", .Run, "Cloud Run",
    ["Secondary Region (us-east1)", "VPC Network", "Compute Layer"]⟩,
  ⟨"compute_secondary", .ComputeEngine, "Compute Engine",
    ["Secondary Region (us-east1)", "VPC Network", "Compute Layer"]⟩,
  ⟨"sql_secondary", .SQL, "Cloud SQL\n(PostgreSQL)",
    ["Secondary Region (us-east1)", "VPC Network", "Database Layer"]⟩,
  ⟨"redis_secondary", .Memorystore, "Redis Cache",
    ["Secondary Region (us-east1)", "VPC Network", "Database Layer"]⟩,
  ⟨"storage_secondary", .GCS, "Cloud Storage",
    ["Secondary Region (us-east1)", "VPC Network", "Storage Layer"]⟩,
  ⟨"filestore_secondary", .Filestore, "Filestore",
    ["Secondary Region (us-east1)", "VPC Network", "Storage Layer"]⟩,
  ⟨"vpc_peering", .VPC, "VPC Peering", ["Cross-Region Connectivity"]⟩,
  ⟨"vpn_tunnel", .VPC, "VPN Tunnel", ["Cross-Region Connectivity"]⟩,
  ⟨"vpc_sc", .VPC, "VPC Service Controls", ["Security & Compliance"]⟩,
  ⟨"binary_auth", .Iam, "Binary Authorization", ["Security & Compliance"]⟩,
  ⟨"workload_identity", .Iam, "Workload Identity", ["Security & Compliance"]⟩
]

/-- Edges of create_gcp_architecture_diagram, in declaration order
(source lines 108 to 173); the plain connector operator carries no label and
no style. -/
def gcpArchitectureEdges : List Edge := [
  { src := "users", dst := "internet" },
  { src := "internet", dst := "dns" },
  { src := "dns", dst := "lb_global" },
  { src := "lb_global", dst := "gke_primary" },
  { src := "lb_global", dst := "gke_secondary" },
  { src := "lb_global", dst := "cloud_run_primary" },
  { src := "lb_global", dst := "cloud_run_secondary" },
  { src := "gke_primary", dst := "sql_primary" },
  { src := "gke_primary", dst := "redis_primary" },
  { src := "gke_primary", dst := "storage_primary" },
  { src := "cloud_run_primary", dst := "sql_primary" },
  { src := "cloud_run_primary", dst := "redis_primary" },
  { src := "compute_primary", dst := "sql_primary" },
  { src := "compute_primary", dst := "storage_primary" },
  { src := "gke_secondary", dst := "sql_secondary" },
  { src := "gke_secondary", dst := "redis_secondary" },
  { src := "gke_secondary", dst := "storage_secondary" },
  { src := "cloud_run_secondary", dst := "sql_secondary" },
  { src := "cloud_run_secondary", dst := "redis_secondary" },
  { src := "compute_secondary", dst := "sql_secondary" },
  { src := "compute_secondary", dst := "storage_secondary" },
  { src := "vpc_primary", dst := "vpc_peering" },
  { src := "vpc_secondary", dst := "vpc_peering" },
  { src := "vpc_primary", dst := "vpn_tunnel" },
  { src := "vpc_secondary", dst := "vpn_tunnel" },
  { src := "sql_primary", dst := "sql_secondary" },
  { src := "iam", dst := "gke_primary" },
  { src := "iam", dst := "gke_secondary" },
  { src := "iam", dst := "cloud_run_primary" },
  { src := "iam", dst := "cloud_run_secondary" },
  { src := "kms", dst := "sql_primary" },
  { src := "kms", dst := "sql_secondary" },
  { src := "kms", dst := "storage_primary" },
  { src := "kms", dst := "storage_secondary" },
  { src := "monitoring", dst := "gke_primary" },
  { src := "monitoring", dst := "gke_secondary" },
  { src := "monitoring", dst := "sql_primary" },
  { src := "monitoring", dst := "sql_secondary" },
  { src := "registry", dst := "gke_primary" },
  { src := "registry", dst := "gke_secondary" },
  { src := "registry", dst := "cloud_run_primary" },
  { src := "registry", dst := "cloud_run_secondary" },
  { src := "vpc_sc", dst := "vpc_primary" },
  { src := "vpc_sc", dst := "vpc_secondary" },
  { src := "binary_auth", dst := "gke_primary" },
  { src := "binary_auth", dst := "gke_secondary" },
  { src := "workload_identity", dst := "gke_primary" },
  { src := "workload_identity", dst := "gke_secondary" }
]

/-- The comprehensive diagram built by create_gcp_architecture_diagram
(source lines 23 to 173). -/
def create_gcp_architecture_diagram : Diagram :=
  { name := "Terraform GCP Multi-Region Infrastructure"
    filename := "gcp_architecture_diagram"
    showView := false
    direction := "TB"
    nodes := gcpArchitectureNodes
    edges := gcpArchitectureEdges }

/-- Nodes of create_simplified_architecture_diagram, in declaration order
(source lines 184 to 207). -/
def simplifiedNodes : List Node := [
  ⟨"users", .Users, "Users", []⟩,
  ⟨"internet", .Internet, "Internet", []⟩,
  ⟨"dns", .DNS, "Cloud DNS", ["Global Services"]⟩,
  ⟨"lb", .LoadBalancing, "Global Load Balancer", ["Global Services"]⟩,
  ⟨"iam", .Iam, "IAM & Security", ["Global Services"]⟩,
  ⟨"monitoring", .BigQuery, "Monitoring & Logging", ["Global Services"]⟩,
  ⟨"gke_primary", .GKE, "GKE Cluster",
    ["Multi-Region Deployment", "Primary Region\n(us-central1)"]⟩,
  ⟨"sql_primary", .SQL, "Cloud SQL",
    ["Multi-Region Deployment", "Primary Region\n(us-central1)"]⟩,
  ⟨"storage_primary", .GCS, "Cloud Storage",
    ["Multi-Region Deployment", "Primary Region\n(us-central1)"]⟩,
  ⟨"gke_secondary", .GKE, "GKE Cluster",
    ["Multi-Region Deployment", "Secondary Region\n(us-east1)"]⟩,
  ⟨"sql_secondary", .SQL, "Cloud SQL",
    ["Multi-Region Deployment", "Secondary Region\n(us-east1)"]⟩,
  ⟨"storage_secondary", .GCS, "Cloud Storage",
    ["Multi-Region Deployment", "Secondary Region\n(us-east1)"]⟩,
  ⟨"vpc_peering", .VPC, "VPC Peering", []⟩
]

/-- Edges of create_simplified_architecture_diagram, in declaration order
(source lines 210 to 225). -/
def simplifiedEdges : List Edge := [
  { src := "users", dst := "internet" },
  { src := "internet", dst := "dns" },
  { src := "dns", dst := "lb" },
  { src := "lb", dst := "gke_primary" },
  { src := "lb", dst := "gke_secondary" },
  { src := "gke_primary", dst := "sql_primary" },
  { src := "gke_primary", dst := "storage_primary" },
  { src := "gke_secondary", dst := "sql_secondary" },
  { src := "gke_secondary", dst := "storage_secondary" },
  { src := "sql_primary", dst := "sql_secondary" },
  { src := "gke_primary", dst := "vpc_peering" },
  { src := "gke_secondary", dst := "vpc_peering" },
  { src := "iam", dst := "gke_primary" },
  { src := "iam", dst := "gke_secondary" },
  { src := "monitoring", dst := "gke_primary" },
  { src := "monitoring", dst := "gke_secondary" }
]

/-- The simplified diagram built by create_simplified_architecture_diagram
(source lines 175 to 225). -/
def create_simplified_architecture_diagram : Diagram :=
  { name := "GCP Infrastructure Overview"
    filename := "gcp_simplified_diagram"
    showView := false
    direction := "TB"
    nodes := simplifiedNodes
    edges := simplifiedEdges }

/-- Identifiers of all nodes declared in a diagram. -/
def nodeIds (d : Diagram) : List String := d.nodes.map Node.id

/-- Whether a diagram declares a node with the given identifier. -/
def hasNode (d : Diagram) (i : String) : Bool := d.nodes.any (fun n => n.id == i)

/-- Referential integrity of the edge list: every edge endpoint identifier is
declared as a node of the same diagram. -/
def edgesWellFormed (d : Diagram) : Bool :=
  d.edges.all (fun e => hasNode d e.src && hasNode d e.dst)

/-- Whether a cluster path extends the given cluster path (the node lies
inside that cluster, possibly in a nested sub-cluster). -/
def pathStartsWith : List String → List String → Bool
  | _, [] => true
  | [], _ :: _ => false
  | a :: as, b :: bs => a == b && pathStartsWith as bs

/-- Nodes declared directly at the diagram root (outside every cluster). -/
def topLevelNodes (d : Diagram) : List Node :=
  d.nodes.filter (fun n => n.path.isEmpty)

/-- Nodes whose innermost cluster is exactly the given path. -/
def nodesWithPath (d : Diagram) (p : List String) : List Node :=
  d.nodes.filter (fun n => n.path == p)

/-- Nodes lying anywhere inside the cluster named by the given path. -/
def nodesUnder (d : Diagram) (p : List String) : List Node :=
  d.nodes.filter (fun n => pathStartsWith n.path p)

/-- Names of the distinct immediate child clusters of the given cluster path
that contain at least one node. -/
def childClusterNames (d : Diagram) (p : List String) : List String :=
  ((nodesUnder d p).filterMap (fun n => n.path.get? p.length)).dedup

/-- Icon category of the node with a given identifier, if declared. -/
def catOf (d : Diagram) (i : String) : Option Category :=
  (d.nodes.find? (fun n => n.id == i)).map Node.category

/-- Identifiers of the nodes inside a cluster path. -/
def idsUnder (d : Diagram) (p : List String) : List String :=
  (nodesUnder d p).map Node.id

/-- Shape of a cluster subtree with identifiers erased: for every node inside
the cluster path, its path relative to that cluster, its category and its
display label, in declaration order. -/
def regionShape (d : Diagram) (p : List String) : List (List String × Category × String) :=
  (nodesUnder d p).map (fun n => (n.path.drop p.length, n.category, n.label))

/-- Shapes of the intra-cluster edges of a cluster path: for every declared
edge with both endpoints inside the cluster, the pair of endpoint categories,
in declaration order. -/
def intraClusterEdgeShapes (d : Diagram) (p : List String) :
    List (Option Category × Option Category) :=
  (d.edges.filter
    (fun e => (idsUnder d p).contains e.src && (idsUnder d p).contains e.dst)).map
    (fun e => (catOf d e.src, catOf d e.dst))

/-- Image file written by the renderer for a diagram: the fixed filename with
the default png output format appended. -/
def renderedFile (d : Diagram) : String := d.filename ++ ".png"

/-- Whether every declared edge is a plain connector: no label and no style
attribute. -/
def plainEdges (d : Diagram) : Bool :=
  d.edges.all (fun e => e.label.isNone && e.style.isNone)

/-- Persistent state of a script run: the list of files written to the
working directory, in order. -/
structure World where
  files : List String
  deriving DecidableEq, Repr

/-- Writing one file appends it to the persisted state. -/
def writeFile (w : World) (f : String) : World := ⟨w.files ++ [f]⟩

/-- One invocation of create_gcp_architecture_diagram: the graph description
it constructs (a fixed literal, independent of any prior state) and the state
after the renderer writes its image file. -/
def runComprehensiveBuild (w : World) : Diagram × World :=
  (create_gcp_architecture_diagram,
    writeFile w (renderedFile create_gcp_architecture_diagram))

/-- One invocation of create_simplified_architecture_diagram, as above. -/
def runSimplifiedBuild (w : World) : Diagram × World :=
  (create_simplified_architecture_diagram,
    writeFile w (renderedFile create_simplified_architecture_diagram))

/-- The script body (source lines 227 to 244): build the comprehensive
diagram, then the simplified diagram, sequentially. -/
def scriptRun (w : World) : World :=
  (runSimplifiedBuild (runComprehensiveBuild w).2).2

/-- The script body parametrised over the renderer, which either returns the
written file name or fails.  The source wraps neither builder call in any
exception handler, so a failure stops the run at once (source lines 227 to
244). -/
def scriptMain {ε : Type} (render : Diagram → Except ε String) :
    Except ε (List String) :=
  match render create_gcp_architecture_diagram with
  | Except.error e => Except.error e
  | Except.ok f1 =>
    match render create_simplified_architecture_diagram with
    | Except.error e => Except.error e
    | Except.ok f2 => Except.ok [f1, f2]

/-- The pair of output artifacts of a run of the script in which the first
builder declares d1 and the second declares d2; the source instantiates this
at the two literal diagrams. -/
def scriptOutputs (d1 d2 : Diagram) : List (String × Diagram) :=
  [(renderedFile d1, d1), (renderedFile d2, d2)]

/-- Modelled from the spec: the reading of the phrase approximately 40 as a
count within ten percent of 40. -/
abbrev specApproximatelyForty (n : Nat) : Prop := 36 ≤ n ∧ n ≤ 44

/-- C1: building the simplified diagram yields exactly 2 top-level external
nodes (Users and Internet, the onprem-provider icons); a Global Services
cluster with exactly 4 nodes (DNS, Load Balancer, IAM, Monitoring); and a
Multi-Region Deployment cluster with exactly 2 sub-clusters, each holding
exactly one compute, one database and one storage node, 6 region-scoped
nodes in total. -/
theorem simplified_diagram_structure :
    ((topLevelNodes create_simplified_architecture_diagram).filter
        (fun n => n.category.provider == Provider.onprem)).map Node.category
      = [Category.Users, Category.Internet]
    ∧ (nodesWithPath create_simplified_architecture_diagram
        ["Global Services"]).length = 4
    ∧ (nodesWithPath create_simplified_architecture_diagram
        ["Global Services"]).map Node.label
      = ["Cloud DNS", "Global Load Balancer", "IAM & Security",
         "Monitoring & Logging"]
    ∧ childClusterNames create_simplified_architecture_diagram
        ["Multi-Region Deployment"]
      = ["Primary Region\n(us-central1)", "Secondary Region\n(us-east1)"]
    ∧ (nodesWithPath create_simplified_architecture_diagram
        ["Multi-Region Deployment", "Primary Region\n(us-central1)"]).map
        (fun n => n.category.kind)
      = [Kind.compute, Kind.database, Kind.storage]
    ∧ (nodesWithPath create_simplified_architecture_diagram
        ["Multi-Region Deployment", "Secondary Region\n(us-east1)"]).map
        (fun n => n.category.kind)
      = [Kind.compute, Kind.database, Kind.storage]
    ∧ (nodesUnder create_simplified_architecture_diagram
        ["Multi-Region Deployment"]).length = 6 := by
  decide

/-- C2: in the comprehensive diagram the primary-region cluster and the
secondary-region cluster are structurally symmetric: erasing node
identifiers, they contain the same sub-cluster tree with the same categories
and labels in the same order, and the same intra-cluster edge shapes
(category pairs), so they differ only in identifiers and the region cluster
names themselves. -/
theorem comprehensive_regions_symmetric :
    regionShape create_gcp_architecture_diagram
        ["Primary Region (us-central1)"]
      = regionShape create_gcp_architecture_diagram
        ["Secondary Region (us-east1)"]
    ∧ intraClusterEdgeShapes create_gcp_architecture_diagram
        ["Primary Region (us-central1)"]
      = intraClusterEdgeShapes create_gcp_architecture_diagram
        ["Secondary Region (us-east1)"] := by
  decide

/-- C3 counterexample: the comprehensive diagram declares exactly 48 edges,
which is not approximately 40 (it misses the ten-percent reading of the
spec's approximation). -/
theorem comprehensive_edge_count_not_forty :
    create_gcp_architecture_diagram.edges.length = 48
    ∧ ¬ specApproximatelyForty create_gcp_architecture_diagram.edges.length := by
  decide

/-- C3 amended: the comprehensive builder takes no input and constructs
exactly 39 nodes (approximately 40), distributed across two 13-node region
clusters plus global (6), cross-region (2) and security (3) clusters and 2
root nodes, together with exactly 48 fixed edges, and requests the renderer
to write the image at the fixed path gcp_architecture_diagram.png. -/
theorem comprehensive_diagram_counts :
    create_gcp_architecture_diagram.nodes.length = 39
    ∧ specApproximatelyForty create_gcp_architecture_diagram.nodes.length
    ∧ create_gcp_architecture_diagram.edges.length = 48
    ∧ (nodesUnder create_gcp_architecture_diagram
        ["Primary Region (us-central1)"]).length = 13
    ∧ (nodesUnder create_gcp_architecture_diagram
        ["Secondary Region (us-east1)"]).length = 13
    ∧ (nodesWithPath create_gcp_architecture_diagram
        ["Global Resources"]).length = 6
    ∧ (nodesWithPath create_gcp_architecture_diagram
        ["Cross-Region Connectivity"]).length = 2
    ∧ (nodesWithPath create_gcp_architecture_diagram
        ["Security & Compliance"]).length = 3
    ∧ (topLevelNodes create_gcp_architecture_diagram).length = 2
    ∧ renderedFile create_gcp_architecture_diagram
      = "gcp_architecture_diagram.png" := by
  decide

/-- C4: in both diagrams, every declared edge has both endpoint identifiers
among the declared nodes of that same diagram. -/
theorem edges_reference_declared_nodes :
    edgesWellFormed create_gcp_architecture_diagram = true
    ∧ edgesWellFormed create_simplified_architecture_diagram = true := by
  decide

/-- C5: within each diagram, no two declared nodes share an identifier. -/
theorem node_identifiers_unique :
    (nodeIds create_gcp_architecture_diagram).Nodup
    ∧ (nodeIds create_simplified_architecture_diagram).Nodup := by
  decide

/-- C6: both builders are deterministic and idempotent: whatever the prior
state of the working directory, and however many times a builder has already
run, each invocation constructs the identical graph description, with the
same nodes and the same edges. -/
theorem builds_deterministic (w w1 : World) :
    (runComprehensiveBuild w).1 = (runComprehensiveBuild w1).1
    ∧ (runSimplifiedBuild w).1 = (runSimplifiedBuild w1).1
    ∧ (runComprehensiveBuild (runComprehensiveBuild w).2).1
      = (runComprehensiveBuild w).1
    ∧ (runSimplifiedBuild (runSimplifiedBuild w).2).1
      = (runSimplifiedBuild w).1
    ∧ (runComprehensiveBuild w).1.nodes = (runComprehensiveBuild w1).1.nodes
    ∧ (runComprehensiveBuild w).1.edges = (runComprehensiveBuild w1).1.edges := by
  exact ⟨rfl, rfl, rfl, rfl, rfl, rfl⟩

/-- C7: the two diagrams are independent: the description one builder
constructs does not depend on whether or when the other ran (no shared
mutable state), and replacing either diagram's declarations leaves the other
diagram's output artifact unchanged. -/
theorem diagrams_independent (d1 d2 d3 : Diagram) (w : World) :
    (runComprehensiveBuild (runSimplifiedBuild w).2).1
      = (runComprehensiveBuild w).1
    ∧ (runSimplifiedBuild (runComprehensiveBuild w).2).1
      = (runSimplifiedBuild w).1
    ∧ (scriptOutputs d1 d2).get? 1 = (scriptOutputs d3 d2).get? 1
    ∧ (scriptOutputs d1 d2).get? 0 = (scriptOutputs d1 d3).get? 0 := by
  exact ⟨rfl, rfl, rfl, rfl⟩

/-- C8: a successful run of the script writes exactly the two image files
gcp_architecture_diagram.png and gcp_simplified_diagram.png, in that order,
to the working directory, and persists nothing else: the final state is the
initial state plus exactly those two files. -/
theorem script_writes_exactly_two_files (w : World) :
    (scriptRun w).files
      = w.files ++ ["gcp_architecture_diagram.png", "gcp_simplified_diagram.png"] := by
  simp [scriptRun, runSimplifiedBuild, runComprehensiveBuild, writeFile,
    renderedFile, create_gcp_architecture_diagram,
    create_simplified_architecture_diagram]

/-- C9: failures of the external renderer are never caught, classified or
translated: if rendering either diagram fails, the script stops at once and
the error surfaces unchanged, with no retry or recovery. -/
theorem renderer_errors_propagate {ε : Type}
    (render : Diagram → Except ε String) (e : ε) :
    (render create_gcp_architecture_diagram = Except.error e →
      scriptMain render = Except.error e)
    ∧ (∀ f1, render create_gcp_architecture_diagram = Except.ok f1 →
        render create_simplified_architecture_diagram = Except.error e →
        scriptMain render = Except.error e) := by
  constructor
  · intro h
    simp [scriptMain, h]
  · intro f1 h1 h2
    simp [scriptMain, h1, h2]

/-- C9 witness: a renderer failing on the first diagram, and a renderer
failing only on the simplified diagram, each abort the script with that very
error. -/
theorem renderer_errors_propagate_witness :
    scriptMain (fun _ => (Except.error 0 : Except Nat String)) = Except.error 0
    ∧ scriptMain (fun d =>
        if d.filename = "gcp_simplified_diagram"
        then (Except.error 0 : Except Nat String)
        else Except.ok d.filename) = Except.error 0 := by
  constructor
  · exact (renderer_errors_propagate
      (fun _ => (Except.error 0 : Except Nat String)) 0).1 rfl
  · exact (renderer_errors_propagate
      (fun d => if d.filename = "gcp_simplified_diagram"
        then (Except.error 0 : Except Nat String)
        else Except.ok d.filename) 0).2
      "gcp_architecture_diagram" (by rfl) (by rfl)

/-- C10: every edge declared in either diagram is a plain connector with no
label and no style, and both diagrams are built with the display disabled
and the same top-to-bottom layout direction. -/
theorem all_edges_plain_and_layout_fixed :
    plainEdges create_gcp_architecture_diagram = true
    ∧ plainEdges create_simplified_architecture_diagram = true
    ∧ create_gcp_architecture_diagram.showView = false
    ∧ create_simplified_architecture_diagram.showView = false
    ∧ create_gcp_architecture_diagram.direction = "TB"
    ∧ create_simplified_architecture_diagram.direction = "TB" := by
  decide

end TerraformGcpDiagram
